import Mathlib

/-!
Verification of the stories-backend core: a shallow embedding of the
story/follow/view/reaction data model, the visibility rules of
`StoryService.get_story`, the feed query `StoryRepository.get_feed_optimized`,
the view/reaction recording paths, the WebSocket connection registry
(`ConnectionManager`), and the expiration sweeper (`ExpirationWorker`).
Machine time is modelled as `Nat`; SQL `NOW()` is the explicit `now`
argument; UUIDs are `Nat` identifiers; fallible paths return `Except`.
-/

namespace StoriesBackend

/-- A row of the `stories` table: `deleted_at` is the soft-delete timestamp
(SQL NULL is `none`), `expires_at` the expiry timestamp set at creation. -/
structure Story where
  id : Nat
  author_id : Nat
  text : Option String
  media_key : Option String
  visibility : String
  created_at : Nat
  expires_at : Nat
  deleted_at : Option Nat
deriving DecidableEq

/-- A row of the `story_views` table, unique per (story_id, viewer_id). -/
structure ViewRecord where
  story_id : Nat
  viewer_id : Nat
  viewed_at : Nat
deriving DecidableEq

/-- A row of the `reactions` table, unique per (story_id, user_id, emoji). -/
structure Reaction where
  id : Nat
  story_id : Nat
  user_id : Nat
  emoji : String
  created_at : Nat
deriving DecidableEq

/-- The relational state touched by the core: users, stories, follow edges
(follower, followee), view records, reactions, and the `story_audience`
table written by `StoryRepository.add_story_audience`. The two counters
supply fresh ids for inserted rows (the database generates UUIDs). -/
structure DB where
  users : List Nat
  stories : List Story
  follows : List (Nat × Nat)
  story_views : List ViewRecord
  reactions : List Reaction
  story_audience : List (Nat × Nat)
  next_story_id : Nat
  next_reaction_id : Nat
deriving DecidableEq

/-- SQL predicate `deleted_at IS NULL AND expires_at > NOW()` shared by
`get_story_by_id` and both feed queries. -/
def storyActive (now : Nat) (s : Story) : Bool :=
  s.deleted_at.isNone && decide (now < s.expires_at)

/-- `StoryRepository.get_story_by_id`: the single-row fetch
`WHERE s.id = $1 AND s.deleted_at IS NULL AND s.expires_at > NOW()`
with the inner `JOIN users u ON s.author_id = u.id`. -/
def get_story_by_id (db : DB) (now sid : Nat) : Option Story :=
  db.stories.find? (fun s =>
    s.id == sid && db.users.contains s.author_id && storyActive now s)

/-- `FollowRepository.is_following`: `EXISTS (SELECT 1 FROM follows WHERE
follower_id = $1 AND followee_id = $2)`. -/
def is_following (db : DB) (follower followee : Nat) : Bool :=
  db.follows.any (fun p => p.1 == follower && p.2 == followee)

/-- `FollowRepository.get_followee_ids`: `SELECT followee_id FROM follows
WHERE follower_id = $1`. -/
def get_followee_ids (db : DB) (uid : Nat) : List Nat :=
  (db.follows.filter (fun p => p.1 == uid)).map (fun p => p.2)

/-- `StoryService.get_story`: fetch the active story, then the permission
ladder — author first, then public, then private, then the friends
follow-edge check. -/
def get_story (db : DB) (now sid viewer : Nat) : Option Story :=
  match get_story_by_id db now sid with
  | none => none
  | some story =>
    if viewer == story.author_id then some story
    else if story.visibility == "public" then some story
    else if story.visibility == "private" then none
    else if story.visibility == "friends" then
      if is_following db viewer story.author_id then some story else none
    else none

/-- The `WHERE expires_at < NOW() AND deleted_at IS NULL` condition of the
sweeper's bulk `UPDATE`. -/
def expireMark (now : Nat) (s : Story) : Bool :=
  decide (s.expires_at < now) && s.deleted_at.isNone

/-- `ExpirationWorker.expire_stories`: the single set-based
`UPDATE stories SET deleted_at = NOW() WHERE expires_at < NOW() AND
deleted_at IS NULL RETURNING id, ...`. First component: ids of the rows the
update touched; second: the table afterwards. -/
def expire_stories (now : Nat) (stories : List Story) : List Nat × List Story :=
  ((stories.filter (expireMark now)).map (fun s => s.id),
   stories.map (fun s =>
     if expireMark now s then { s with deleted_at := some now } else s))

/-- `ExpirationWorker.run`: the main loop. Each tick is a pair
(now, storeUp). On an available store the sweep runs and the loop
continues; `expire_stories` re-raises any exception and `run` has no
per-iteration handler, so an unavailable store propagates out of the
`while`, reaching the outer fatal-error handler: the loop stops and later
ticks are never attempted. Result: performed sweeps, final table, and
whether the loop terminated by exception. -/
def workerRun : List (Nat × Bool) → List Story → List (List Nat) × List Story × Bool
  | [], st => ([], st, false)
  | (now, up) :: rest, st =>
    if up then
      let swept := expire_stories now st
      let r := workerRun rest swept.2
      (swept.1 :: r.1, r.2.1, r.2.2)
    else
      ([], st, true)

theorem expireMark_eq_true (now : Nat) (s : Story) :
    expireMark now s = true ↔ s.expires_at < now ∧ s.deleted_at = none := by
  simp [expireMark, Option.isNone_iff_eq_none]

theorem expireMark_update_false (now : Nat) (s : Story) :
    expireMark now (if expireMark now s then { s with deleted_at := some now } else s) = false := by
  by_cases h : expireMark now s = true
  · rw [if_pos h]
    simp [expireMark]
  · simp only [Bool.not_eq_true] at h
    rw [if_neg (by simp [h])]
    exact h

theorem expire_stories_fst (now : Nat) (l : List Story) :
    (expire_stories now l).1 = (l.filter (expireMark now)).map (fun s => s.id) := rfl

theorem expire_stories_snd (now : Nat) (l : List Story) :
    (expire_stories now l).2 =
      l.map (fun s => if expireMark now s then { s with deleted_at := some now } else s) := rfl

theorem expireMark_false_of_swept (now : Nat) (st : List Story) :
    ∀ a ∈ (expire_stories now st).2, expireMark now a = false := by
  intro a ha
  rw [expire_stories_snd, List.mem_map] at ha
  obtain ⟨t, _, rfl⟩ := ha
  exact expireMark_update_false now t

/-- C4: one sweep marks exactly the not-yet-deleted stories whose expiry is
strictly before now, returns those rows, and an immediate second sweep at
the same instant affects zero additional rows and leaves the table
unchanged. -/
theorem expire_stories_exact_and_idempotent (now : Nat) (st : List Story) :
    (∀ sid : Nat, sid ∈ (expire_stories now st).1 ↔
      ∃ s : Story, s ∈ st ∧ s.id = sid ∧ s.expires_at < now ∧ s.deleted_at = none) ∧
    (expire_stories now (expire_stories now st).2).1 = [] ∧
    (expire_stories now (expire_stories now st).2).2 = (expire_stories now st).2 := by
  refine ⟨?_, ?_, ?_⟩
  · intro sid
    simp only [expire_stories, List.mem_map, List.mem_filter, expireMark_eq_true]
    constructor
    · rintro ⟨s, ⟨hs, hexp, hdel⟩, hid⟩
      exact ⟨s, hs, hid, hexp, hdel⟩
    · rintro ⟨s, hs, hid, hexp, hdel⟩
      exact ⟨s, ⟨hs, hexp, hdel⟩, hid⟩
  · rw [expire_stories_fst, List.filter_eq_nil_iff.mpr (by
      intro a ha
      simp [expireMark_false_of_swept now st a ha])]
    rfl
  · rw [expire_stories_snd]
    conv_rhs => rw [← List.map_id ((expire_stories now st).2)]
    apply List.map_congr_left
    intro a ha
    rw [if_neg (by simp [expireMark_false_of_swept now st a ha])]
    rfl

/-- C2 counterexample: a story expired at tick time 10 is in the table; the
first tick's sweep raises (store down), and although a second tick with the
store healthy is scheduled, the loop has terminated: no sweep ever runs,
the loop reports a fatal exception, and the expired story is never marked —
even though a retried sweep would have marked it. -/
theorem worker_crash_counterexample :
    workerRun [(10, false), (10, true)]
        [{ id := 1, author_id := 2, text := some "t", media_key := none,
           visibility := "public", created_at := 0, expires_at := 5,
           deleted_at := none }] =
      ([],
       [{ id := 1, author_id := 2, text := some "t", media_key := none,
          visibility := "public", created_at := 0, expires_at := 5,
          deleted_at := none }], true) ∧
    (expire_stories 10
        [{ id := 1, author_id := 2, text := some "t", media_key := none,
           visibility := "public", created_at := 0, expires_at := 5,
           deleted_at := none }]).1 = [1] := by
  constructor
  · rfl
  · rfl

/-- C2 amended: when a sweep iteration raises, the error propagates out of
the worker loop — the loop terminates at that tick with no sweep recorded
and the table unchanged, and no later tick is attempted. -/
theorem worker_crash_on_failed_sweep (now : Nat) (rest : List (Nat × Bool))
    (st : List Story) :
    workerRun ((now, false) :: rest) st = ([], st, true) := by
  rfl

/-- A push handed to `ConnectionManager.send_to_user`: target user id and
event name. -/
abbrev Push := Nat × String

/-- The lookup `SELECT ... FROM story_views WHERE story_id = $1 AND
viewer_id = $2` used on the conflict path of `add_view`. -/
def find_view (db : DB) (sid vid : Nat) : Option ViewRecord :=
  db.story_views.find? (fun v => v.story_id == sid && v.viewer_id == vid)

/-- `StoryRepository.add_view`: `INSERT ... ON CONFLICT (story_id,
viewer_id) DO NOTHING RETURNING ...`; a returned row means a fresh insert
(flag true), otherwise the existing record is fetched (flag false). -/
def add_view (db : DB) (now sid vid : Nat) : (Bool × ViewRecord) × DB :=
  match find_view db sid vid with
  | some v => ((false, v), db)
  | none =>
    let v : ViewRecord := { story_id := sid, viewer_id := vid, viewed_at := now }
    ((true, v), { db with story_views := v :: db.story_views })

/-- The lookup `SELECT ... FROM reactions WHERE story_id = $1 AND
user_id = $2 AND emoji = $3` used on the conflict path of `add_reaction`. -/
def find_reaction (db : DB) (sid uid : Nat) (emoji : String) : Option Reaction :=
  db.reactions.find? (fun r => r.story_id == sid && r.user_id == uid && r.emoji == emoji)

/-- `StoryRepository.add_reaction`: `INSERT ... ON CONFLICT (story_id,
user_id, emoji) DO NOTHING RETURNING ...`; on conflict the existing row is
fetched. Unlike `add_view`, the returned row (id, story_id, user_id, emoji,
created_at — the exact fields of `ReactionResponse`) carries no
first-time/repeat flag. -/
def add_reaction (db : DB) (now sid uid : Nat) (emoji : String) : Reaction × DB :=
  match find_reaction db sid uid emoji with
  | some r => (r, db)
  | none =>
    let r : Reaction :=
      { id := db.next_reaction_id, story_id := sid, user_id := uid,
        emoji := emoji, created_at := now }
    (r, { db with reactions := r :: db.reactions,
                  next_reaction_id := db.next_reaction_id + 1 })

/-- `StoryService.record_view`: 404 when the story is absent or inactive;
otherwise insert-or-fetch the view and, only when the view is new and the
viewer is not the author, push `story.viewed` to the author. -/
def record_view (db : DB) (now sid vid : Nat) :
    Except Unit ((Bool × ViewRecord) × DB × List Push) :=
  match get_story_by_id db now sid with
  | none => .error ()
  | some story =>
    let res := add_view db now sid vid
    .ok (res.1, res.2,
      if res.1.1 && story.author_id != vid then
        [(story.author_id, "story.viewed")] else [])

/-- `StoryService.add_reaction`: 404 when the story is absent or inactive;
otherwise insert-or-fetch the reaction and, whenever the reacting user is
not the author, push `story.reacted` to the author — the push is not
conditioned on the insert-or-fetch outcome. -/
def service_add_reaction (db : DB) (now sid uid : Nat) (emoji : String) :
    Except Unit (Reaction × DB × List Push) :=
  match get_story_by_id db now sid with
  | none => .error ()
  | some story =>
    let res := add_reaction db now sid uid emoji
    .ok (res.1, res.2,
      if story.author_id != uid then [(story.author_id, "story.reacted")] else [])

/-- A public story by user 1, live at times below 100. -/
def sampleStory : Story :=
  { id := 10, author_id := 1, text := some "hi", media_key := none,
    visibility := "public", created_at := 5, expires_at := 100,
    deleted_at := none }

/-- An existing reaction by user 2 on `sampleStory`. -/
def sampleReaction : Reaction :=
  { id := 0, story_id := 10, user_id := 2, emoji := "👍", created_at := 20 }

/-- A state in which user 2 has already reacted 👍 to `sampleStory`. -/
def sampleDB : DB :=
  { users := [1, 2, 3], stories := [sampleStory], follows := [],
    story_views := [], reactions := [sampleReaction], story_audience := [],
    next_story_id := 11, next_reaction_id := 1 }

/-- C1 counterexample: user 2's reaction (story 10, user 2, 👍) already
exists in `sampleDB`, so this call of add_reaction is a repeat that
resolves to the existing record — yet the service still pushes
`story.reacted` to author 1, contradicting the claim that the push is
emitted only when the record was newly inserted. -/
theorem reacted_push_on_repeat_counterexample :
    find_reaction sampleDB 10 2 "👍" = some sampleReaction ∧
    service_add_reaction sampleDB 50 10 2 "👍" =
      .ok (sampleReaction, sampleDB, [(1, "story.reacted")]) := by
  exact ⟨rfl, rfl⟩

/-- C1 amended: for an active story whose author is not the reacting user,
every successful add_reaction call pushes `story.reacted` to the author —
repeat calls that resolve to the existing record included; the push is not
gated on a newly-inserted record. -/
theorem reacted_push_ungated (db : DB) (now sid uid : Nat) (emoji : String)
    (story : Story) (hs : get_story_by_id db now sid = some story)
    (hne : story.author_id ≠ uid) :
    ∃ r : Reaction, ∃ db2 : DB,
      service_add_reaction db now sid uid emoji =
        .ok (r, db2, [(story.author_id, "story.reacted")]) := by
  refine ⟨(add_reaction db now sid uid emoji).1,
          (add_reaction db now sid uid emoji).2, ?_⟩
  simp [service_add_reaction, hs, hne]

/-- C1 amended witness: instantiated at `sampleDB`, for the repeat
reaction of user 2 on story 10. -/
theorem reacted_push_ungated_witness :
    ∃ r : Reaction, ∃ db2 : DB,
      service_add_reaction sampleDB 50 10 2 "👍" =
        .ok (r, db2, [(1, "story.reacted")]) := by
  have h := reacted_push_ungated sampleDB 50 10 2 "👍" sampleStory rfl
    (by decide)
  simpa [sampleStory] using h

/-- A state with no reactions and no views yet, used for first-versus-repeat
comparisons. -/
def freshDB : DB :=
  { users := [1, 2, 3], stories := [sampleStory], follows := [],
    story_views := [], reactions := [], story_audience := [],
    next_story_id := 11, next_reaction_id := 1 }

/-- C5 counterexample: starting from `freshDB`, the first add_reaction call
and the repeat call return byte-identical records — the response (the
fields of `ReactionResponse`: id, story_id, user_id, emoji, created_at)
carries no component distinguishing first-time from repeat, whereas the
view case does flip its `is_new_view` flag from true to false. -/
theorem reaction_no_repeat_flag_counterexample :
    (add_reaction (add_reaction freshDB 20 10 2 "👍").2 30 10 2 "👍").1 =
      (add_reaction freshDB 20 10 2 "👍").1 ∧
    (add_view freshDB 20 10 2).1.1 = true ∧
    (add_view (add_view freshDB 20 10 2).2 30 10 2).1.1 = false := by
  exact ⟨rfl, rfl, rfl⟩

/-- C5 amended: add_reaction is idempotent — a repeat call with the same
(story, user, emoji) succeeds, returns exactly the record the first call
returned, and leaves the store unchanged; but unlike the view case the
response carries no first-time/repeat boolean, so the two responses are
identical. -/
theorem add_reaction_idempotent (db : DB) (now now2 sid uid : Nat)
    (emoji : String) :
    (add_reaction (add_reaction db now sid uid emoji).2 now2 sid uid emoji).1 =
      (add_reaction db now sid uid emoji).1 ∧
    (add_reaction (add_reaction db now sid uid emoji).2 now2 sid uid emoji).2 =
      (add_reaction db now sid uid emoji).2 := by
  cases hf : find_reaction db sid uid emoji with
  | some r =>
    constructor <;> simp [add_reaction, hf]
  | none =>
    set r : Reaction :=
      { id := db.next_reaction_id, story_id := sid, user_id := uid,
        emoji := emoji, created_at := now } with hr
    have hf2 : find_reaction
        { db with reactions := r :: db.reactions,
                  next_reaction_id := db.next_reaction_id + 1 } sid uid emoji =
        some r := by
      simp [find_reaction, hr]
    constructor <;> simp [add_reaction, hf, hf2]

/-- C9: `record_view` performs no permission check — it fails (404) exactly
when the story is absent or inactive, and for an active story it succeeds
for every viewer, whatever the story's visibility and whether or not the
viewer may see it, pushing `story.viewed` to the author exactly when the
view is new and the viewer is not the author. -/
theorem record_view_no_permission_check (db : DB) (now sid vid : Nat) :
    (record_view db now sid vid = .error () ↔ get_story_by_id db now sid = none) ∧
    (∀ story : Story, get_story_by_id db now sid = some story →
      ∃ isNew : Bool, ∃ v : ViewRecord, ∃ db2 : DB,
        record_view db now sid vid =
          .ok ((isNew, v), db2,
            if isNew && story.author_id != vid then
              [(story.author_id, "story.viewed")] else [])) := by
  constructor
  · cases hs : get_story_by_id db now sid with
    | none => simp [record_view, hs]
    | some story => simp [record_view, hs]
  · intro story hs
    exact ⟨(add_view db now sid vid).1.1, (add_view db now sid vid).1.2,
           (add_view db now sid vid).2, by simp [record_view, hs]⟩

/-- A private story by user 1, live at times below 100. -/
def privateStory : Story :=
  { id := 40, author_id := 1, text := some "secret", media_key := none,
    visibility := "private", created_at := 5, expires_at := 100,
    deleted_at := none }

/-- A state holding a private story of user 1; user 3 has no permission to
view it and has not viewed it before. -/
def privateDB : DB :=
  { users := [1, 2, 3], stories := [privateStory], follows := [],
    story_views := [], reactions := [], story_audience := [],
    next_story_id := 41, next_reaction_id := 1 }

/-- C9 witness: user 3 cannot view user 1's private story 40 (the
permission-checked fetch returns no result), yet record_view succeeds for
user 3 and pushes `story.viewed` to author 1. -/
theorem record_view_no_permission_check_witness :
    get_story privateDB 50 40 3 = none ∧
    (∃ isNew : Bool, ∃ v : ViewRecord, ∃ db2 : DB,
      record_view privateDB 50 40 3 =
        .ok ((isNew, v), db2,
          if isNew && (1 != 3) then [(1, "story.viewed")] else [])) := by
  refine ⟨rfl, ?_⟩
  have h := (record_view_no_permission_check privateDB 50 40 3).2 privateStory rfl
  simpa [privateStory] using h

theorem is_following_iff (db : DB) (a b : Nat) :
    is_following db a b = true ↔ (a, b) ∈ db.follows := by
  simp only [is_following, List.any_eq_true, Bool.and_eq_true, beq_iff_eq]
  constructor
  · rintro ⟨⟨x, y⟩, hmem, hx, hy⟩
    subst hx
    subst hy
    exact hmem
  · intro hmem
    exact ⟨(a, b), hmem, rfl, rfl⟩

/-- C3: for an active friends-only story, the permission-checked single
fetch returns the story to a viewer exactly when the viewer is the author
or a follow edge (viewer, author) exists; every other viewer gets no
result. -/
theorem get_story_friends_visibility (db : DB) (now sid viewer : Nat)
    (story : Story) (hs : get_story_by_id db now sid = some story)
    (hv : story.visibility = "friends") :
    (get_story db now sid viewer = some story ↔
      viewer = story.author_id ∨ (viewer, story.author_id) ∈ db.follows) ∧
    (¬(viewer = story.author_id ∨ (viewer, story.author_id) ∈ db.follows) →
      get_story db now sid viewer = none) := by
  have hmain : get_story db now sid viewer = some story ↔
      viewer = story.author_id ∨ (viewer, story.author_id) ∈ db.follows := by
    simp only [get_story, hs, hv]
    by_cases ha : viewer = story.author_id
    · simp [ha]
    · have ha2 : (viewer == story.author_id) = false := by
        simp [ha]
      by_cases hf : is_following db viewer story.author_id
      · simp [ha2, hf, ha, (is_following_iff db viewer story.author_id).mp hf]
      · simp only [Bool.not_eq_true] at hf
        have hnm : (viewer, story.author_id) ∉ db.follows := by
          intro hmem
          rw [← is_following_iff db viewer story.author_id] at hmem
          simp [hmem] at hf
        simp [ha2, hf, ha, hnm]
  refine ⟨hmain, fun hno => ?_⟩
  cases hres : get_story db now sid viewer with
  | none => rfl
  | some s =>
    have : s = story := by
      have := hres
      simp only [get_story, hs] at this
      by_cases ha : viewer == story.author_id
      · simp [ha] at this
        exact this.symm
      · simp only [ha, Bool.false_eq_true, if_false, hv] at this
        by_cases hf : is_following db viewer story.author_id
        · simp [hf] at this
          exact this.symm
        · simp only [Bool.not_eq_true] at hf
          simp [hf] at this
    subst this
    exact absurd (hmain.mp hres) hno

/-- A state with a friends-only story by user 1 and a follow edge from
user 2 to user 1, but none from user 3. -/
def friendsDB : DB :=
  { users := [1, 2, 3],
    stories := [{ id := 60, author_id := 1, text := some "friends only",
                  media_key := none, visibility := "friends",
                  created_at := 5, expires_at := 100, deleted_at := none }],
    follows := [(2, 1)], story_views := [], reactions := [],
    story_audience := [], next_story_id := 61, next_reaction_id := 1 }

/-- C3 witness: follower 2 gets the friends-only story 60, non-follower 3
gets no result. -/
theorem get_story_friends_visibility_witness :
    get_story friendsDB 50 60 2 =
      some { id := 60, author_id := 1, text := some "friends only",
             media_key := none, visibility := "friends",
             created_at := 5, expires_at := 100, deleted_at := none } ∧
    get_story friendsDB 50 60 3 = none := by
  constructor
  · exact (get_story_friends_visibility friendsDB 50 60 2 _ rfl rfl).1.mpr
      (Or.inr (by decide))
  · exact (get_story_friends_visibility friendsDB 50 60 3 _ rfl rfl).2
      (by decide)

/-- The ordering `ORDER BY s.created_at DESC` sorts by: a precedes b when
a's creation time is at least b's. -/
def createdGe (a b : Story) : Prop := b.created_at ≤ a.created_at

instance : DecidableRel createdGe := fun a b => Nat.decLe b.created_at a.created_at

instance : IsTotal Story createdGe := ⟨fun a b => Nat.le_total b.created_at a.created_at⟩

instance : IsTrans Story createdGe :=
  ⟨fun _ _ _ hab hbc => Nat.le_trans hbc hab⟩

/-- The WHERE clause of the empty-followee branch of
`StoryRepository.get_feed_optimized`: active rows whose author joins
against `users` and that are public or the requesting user's own. -/
def publicOrOwnRows (db : DB) (now uid : Nat) : List Story :=
  db.stories.filter (fun s =>
    storyActive now s && db.users.contains s.author_id &&
    (s.visibility == "public" || s.author_id == uid))

/-- `StoryRepository.get_feed_optimized`. With a nonempty followee list the
code builds a query holding `len(followee_ids) + 3` placeholders, but the
parameter list is then unconditionally overwritten to the three-element
`[user_id, limit, offset]` (the assignment after the if/else is not
indented into the else branch), so the fetch raises a parameter-count
error and never returns rows. With an empty followee list the parameters
match and the query returns the page of active public-or-own stories
ordered by created_at descending; the database's unconstrained tie order
among equal timestamps is represented here by one fixed (insertion-sort)
order, and `feedQueryResult` below captures exactly what the query
constrains. -/
def get_feed_optimized (db : DB) (now uid : Nat) (followee_ids : List Nat)
    (limit offset : Nat) : Except Unit (List Story) :=
  if followee_ids.isEmpty then
    .ok (((List.insertionSort createdGe (publicOrOwnRows db now uid)).drop offset).take limit)
  else
    .error ()

/-- `StoryService.get_feed` on a cold cache: followee ids fetched from the
store (the cache layers are advisory pass-throughs), then the optimized
feed query. -/
def service_get_feed (db : DB) (now uid limit offset : Nat) :
    Except Unit (List Story) :=
  get_feed_optimized db now uid (get_followee_ids db uid) limit offset

/-- Everything the empty-followee feed query determines about its result
set: the page is the OFFSET/LIMIT window of some created_at-descending
ordering of the matching rows. `ORDER BY created_at DESC` constrains
nothing further — rows with equal timestamps may come back in any relative
order. -/
def feedQueryResult (db : DB) (now uid limit offset : Nat)
    (res : List Story) : Prop :=
  ∃ full : List Story, full.Perm (publicOrOwnRows db now uid) ∧
    List.Sorted createdGe full ∧ res = (full.drop offset).take limit

theorem sorted_page_of_sorted (full : List Story) (limit offset : Nat)
    (hs : List.Sorted createdGe full) :
    List.Sorted createdGe ((full.drop offset).take limit) :=
  List.Pairwise.sublist
    ((List.take_sublist limit _).trans (List.drop_sublist offset full)) hs

/-- C7: for a user following nobody, the cold-cache feed does not degrade
to nothing — it returns the created_at-descending OFFSET/LIMIT page over
exactly the active public stories plus the user's own active stories, with
the page length determined by limit, offset, and the number of matching
rows. -/
theorem feed_empty_followees (db : DB) (now uid limit offset : Nat)
    (h : get_followee_ids db uid = []) :
    ∃ page : List Story,
      service_get_feed db now uid limit offset = .ok page ∧
      feedQueryResult db now uid limit offset page ∧
      List.Sorted createdGe page ∧
      (∀ s ∈ page, s.deleted_at = none ∧ now < s.expires_at ∧
        (s.visibility = "public" ∨ s.author_id = uid)) ∧
      page.length = min limit ((publicOrOwnRows db now uid).length - offset) := by
  refine ⟨((List.insertionSort createdGe (publicOrOwnRows db now uid)).drop offset).take limit,
    ?_, ?_, ?_, ?_, ?_⟩
  · simp [service_get_feed, get_feed_optimized, h]
  · exact ⟨List.insertionSort createdGe (publicOrOwnRows db now uid),
      List.perm_insertionSort createdGe _,
      List.sorted_insertionSort createdGe _, rfl⟩
  · exact sorted_page_of_sorted _ limit offset
      (List.sorted_insertionSort createdGe _)
  · intro s hsmem
    have hfull : s ∈ List.insertionSort createdGe (publicOrOwnRows db now uid) :=
      List.mem_of_mem_drop (List.mem_of_mem_take hsmem)
    have hrows : s ∈ publicOrOwnRows db now uid :=
      (List.perm_insertionSort createdGe _).subset hfull
    have hpred := (List.mem_filter.mp hrows).2
    simp only [storyActive, Bool.and_eq_true, Bool.or_eq_true, beq_iff_eq,
      decide_eq_true_eq, Option.isNone_iff_eq_none] at hpred
    exact ⟨hpred.1.1.1, hpred.1.1.2, hpred.2⟩
  · rw [List.length_take, List.length_drop,
      (List.perm_insertionSort createdGe (publicOrOwnRows db now uid)).length_eq]

/-- User 5 follows nobody; the store holds a live public story by user 1,
a live private story by user 5, and a live private story by user 2. -/
def noFollowsDB : DB :=
  { users := [1, 2, 5],
    stories :=
      [{ id := 70, author_id := 1, text := some "pub", media_key := none,
         visibility := "public", created_at := 9, expires_at := 100,
         deleted_at := none },
       { id := 71, author_id := 5, text := some "mine", media_key := none,
         visibility := "private", created_at := 8, expires_at := 100,
         deleted_at := none },
       { id := 72, author_id := 2, text := some "hidden", media_key := none,
         visibility := "private", created_at := 7, expires_at := 100,
         deleted_at := none }],
    follows := [], story_views := [], reactions := [], story_audience := [],
    next_story_id := 73, next_reaction_id := 1 }

/-- C7 witness: user 5 has an empty followee set, yet the feed page holds
two stories — the public one and user 5's own — not zero. -/
theorem feed_empty_followees_witness :
    ∃ page : List Story,
      service_get_feed noFollowsDB 50 5 20 0 = .ok page ∧ page.length = 2 := by
  obtain ⟨page, hok, _, _, _, hlen⟩ := feed_empty_followees noFollowsDB 50 5 20 0 rfl
  refine ⟨page, hok, ?_⟩
  rw [hlen]
  decide

/-- Two live public stories by different authors with the same creation
timestamp, in a store where user 5 follows nobody. -/
def tieStoryA : Story :=
  { id := 1, author_id := 1, text := some "a", media_key := none,
    visibility := "public", created_at := 10, expires_at := 100,
    deleted_at := none }

def tieStoryB : Story :=
  { id := 2, author_id := 2, text := some "b", media_key := none,
    visibility := "public", created_at := 10, expires_at := 100,
    deleted_at := none }

def tieDB : DB :=
  { users := [1, 2, 5], stories := [tieStoryA, tieStoryB], follows := [],
    story_views := [], reactions := [], story_audience := [],
    next_story_id := 3, next_reaction_id := 1 }

/-- C8 counterexample: with two stories sharing created_at = 10 the query
contract admits both [A, B] and [B, A] as results of the same
(user, limit, offset) evaluation — the order of ties is not determined by
the code (no tie-break column follows created_at in the ORDER BY), so two
evaluations may return different orders and neither order is pinned to the
story-id tie-break the claim requires. -/
theorem feed_order_flap_counterexample :
    feedQueryResult tieDB 50 5 20 0 [tieStoryA, tieStoryB] ∧
    feedQueryResult tieDB 50 5 20 0 [tieStoryB, tieStoryA] ∧
    [tieStoryA, tieStoryB] ≠ [tieStoryB, tieStoryA] := by
  refine ⟨⟨[tieStoryA, tieStoryB], ?_, ?_, rfl⟩,
          ⟨[tieStoryB, tieStoryA], ?_, ?_, rfl⟩, ?_⟩
  · decide
  · decide
  · decide
  · decide
  · decide

/-- C8 amended: the feed page is always sorted by created_at descending,
but that is all the query guarantees about order — among stories with
equal creation timestamps the relative order is left open (see the
counterexample), with no stable story-id tie-break. -/
theorem feed_result_sorted (db : DB) (now uid limit offset : Nat)
    (res : List Story) (h : feedQueryResult db now uid limit offset res) :
    List.Sorted createdGe res := by
  obtain ⟨full, _, hsort, rfl⟩ := h
  exact sorted_page_of_sorted full limit offset hsort

/-- C8 amended witness: sortedness of a concrete valid result over
`tieDB`. -/
theorem feed_result_sorted_witness :
    List.Sorted createdGe [tieStoryA, tieStoryB] := by
  refine feed_result_sorted tieDB 50 5 20 0 [tieStoryA, tieStoryB]
    ⟨[tieStoryA, tieStoryB], ?_, ?_, rfl⟩
  · decide
  · decide

/-- The `ConnectionManager` state: user id → set of live connection
handles; `none` when the user has no entry (empty sets are deleted). -/
def Registry := Nat → Option (List Nat)

/-- `ConnectionManager.disconnect`: drop the handle from the user's set
(no-op when the user has no entry); delete the entry when the set becomes
empty. -/
def disconnect (reg : Registry) (uid handle : Nat) : Registry :=
  fun u =>
    if u = uid then
      match reg uid with
      | none => none
      | some hs =>
        let hs2 := hs.filter (fun x => x != handle)
        if hs2.isEmpty then none else some hs2
    else reg u

/-- `ConnectionManager.send_to_user`: copy the user's handle set, attempt
delivery to every handle — a throwing send is caught per handle and does
not stop the iteration (`sendOk` tells which transports succeed) — then
prune exactly the failing handles via `disconnect`. Returns the handles
that received the event and the updated registry; an absent user is a
silent no-op. -/
def send_to_user (sendOk : Nat → Bool) (reg : Registry) (uid : Nat) :
    List Nat × Registry :=
  match reg uid with
  | none => ([], reg)
  | some hs =>
    (hs.filter sendOk,
     (hs.filter (fun x => !sendOk x)).foldl (fun r x => disconnect r uid x) reg)

/-- C6: with two live handles for one user, delivery reaches both when both
sends succeed and the registry is untouched; when the first handle's send
throws, the second still receives the event, the failing handle is removed
from the registry, and the surviving handle remains registered. -/
theorem send_to_user_two_handles (reg : Registry) (uid h1 h2 : Nat)
    (sendOk : Nat → Bool) (hreg : reg uid = some [h1, h2]) (hne : h1 ≠ h2) :
    (sendOk h1 = true → sendOk h2 = true →
      (send_to_user sendOk reg uid).1 = [h1, h2] ∧
      (send_to_user sendOk reg uid).2 uid = some [h1, h2]) ∧
    (sendOk h1 = false → sendOk h2 = true →
      (send_to_user sendOk reg uid).1 = [h2] ∧
      h1 ∉ (send_to_user sendOk reg uid).1 ∧
      (send_to_user sendOk reg uid).2 uid = some [h2]) := by
  have hne2 : (h2 != h1) = true := by
    simp [bne_iff_ne]
    exact Ne.symm hne
  constructor
  · intro hok1 hok2
    constructor
    · simp [send_to_user, hreg, hok1, hok2]
    · simp [send_to_user, hreg, hok1, hok2]
  · intro hok1 hok2
    refine ⟨?_, ?_, ?_⟩
    · simp [send_to_user, hreg, hok1, hok2]
    · simp [send_to_user, hreg, hok1, hok2]
      exact hne
    · simp only [send_to_user, hreg, hok1, hok2, List.filter_cons,
        Bool.not_true, Bool.not_false, if_true, if_false, List.filter_nil,
        List.foldl_cons, List.foldl_nil]
      simp [disconnect, hreg, hne2]

/-- A registry where user 7 holds the two handles 1 and 2. -/
def demoReg : Registry :=
  fun u => if u = 7 then some [1, 2] else none

/-- A transport state in which handle 1's send throws and every other send
succeeds. -/
def failFirst : Nat → Bool := fun x => x != 1

/-- C6 witness: on `demoReg`, delivery with handle 1 failing reaches
handle 2, removes handle 1, and keeps handle 2 registered; with all sends
succeeding both handles receive the event. -/
theorem send_to_user_two_handles_witness :
    ((send_to_user failFirst demoReg 7).1 = [2] ∧
      1 ∉ (send_to_user failFirst demoReg 7).1 ∧
      (send_to_user failFirst demoReg 7).2 7 = some [2]) ∧
    (send_to_user (fun _ => true) demoReg 7).1 = [1, 2] := by
  constructor
  · exact (send_to_user_two_handles demoReg 7 1 2 failFirst rfl
      (by decide)).2 rfl rfl
  · exact ((send_to_user_two_handles demoReg 7 1 2 (fun _ => true) rfl
      (by decide)).1 rfl rfl).1

/-- Membership test against the (story_id, user_id) uniqueness constraint
of the `story_audience` table. -/
def audienceContains (l : List (Nat × Nat)) (sid u : Nat) : Bool :=
  l.any (fun p => p.1 == sid && p.2 == u)

/-- `StoryRepository.add_story_audience`: `executemany` of
`INSERT INTO story_audience (story_id, user_id) VALUES ($1, $2)
ON CONFLICT DO NOTHING` over the given user ids. -/
def add_story_audience (db : DB) (sid : Nat) (user_ids : List Nat) : DB :=
  user_ids.foldl (fun d u =>
    if audienceContains d.story_audience sid u then d
    else { d with story_audience := (sid, u) :: d.story_audience }) db

/-- `StoryService.create_story`: reject a story with neither text nor
media before any store write; insert the story with expiry now + ttl; when
the story is friends-only and a nonempty custom audience list was supplied,
write it to `story_audience`; then invalidate the author's feed cache
(the cache is advisory and not modelled). -/
def create_story (db : DB) (now ttl author : Nat)
    (text media_key : Option String) (visibility : String)
    (audience_user_ids : Option (List Nat)) : Except Unit (Story × DB) :=
  if text.isNone && media_key.isNone then .error ()
  else
    let s : Story :=
      { id := db.next_story_id, author_id := author, text := text,
        media_key := media_key, visibility := visibility, created_at := now,
        expires_at := now + ttl, deleted_at := none }
    let db1 : DB :=
      { db with stories := s :: db.stories,
                next_story_id := db.next_story_id + 1 }
    match audience_user_ids with
    | some ids =>
      if visibility == "friends" && !ids.isEmpty then
        .ok (s, add_story_audience db1 s.id ids)
      else .ok (s, db1)
    | none => .ok (s, db1)

theorem add_story_audience_mono (sid : Nat) (ids : List Nat) (db : DB)
    (p : Nat × Nat) (hp : p ∈ db.story_audience) :
    p ∈ (add_story_audience db sid ids).story_audience := by
  induction ids generalizing db with
  | nil => exact hp
  | cons v vs ih =>
    simp only [add_story_audience, List.foldl_cons]
    by_cases hc : audienceContains db.story_audience sid v = true
    · rw [if_pos hc]
      exact ih db hp
    · rw [if_neg (by simp [hc])]
      exact ih _ (List.mem_cons_of_mem _ hp)

theorem mem_add_story_audience (sid : Nat) (ids : List Nat) (db : DB)
    (u : Nat) (hu : u ∈ ids) :
    (sid, u) ∈ (add_story_audience db sid ids).story_audience := by
  induction ids generalizing db with
  | nil => cases hu
  | cons v vs ih =>
    simp only [add_story_audience, List.foldl_cons]
    rcases List.mem_cons.mp hu with rfl | hu2
    · by_cases hc : audienceContains db.story_audience sid u = true
      · rw [if_pos hc]
        have hmem : (sid, u) ∈ db.story_audience := by
          simp only [audienceContains, List.any_eq_true, Bool.and_eq_true,
            beq_iff_eq] at hc
          obtain ⟨⟨x, y⟩, hxy, hx, hy⟩ := hc
          subst hx
          subst hy
          exact hxy
        exact add_story_audience_mono sid vs db _ hmem
      · rw [if_neg (by simp [hc])]
        exact add_story_audience_mono sid vs _ _ (List.mem_cons_self _ _)
    · by_cases hc : audienceContains db.story_audience sid v = true
      · rw [if_pos hc]
        exact ih db hu2
      · rw [if_neg (by simp [hc])]
        exact ih _ hu2

/-- Agreement on every component of the state except the
`story_audience` table. -/
def agreeExceptAudience (db1 db2 : DB) : Prop :=
  db1.users = db2.users ∧ db1.stories = db2.stories ∧
  db1.follows = db2.follows ∧ db1.story_views = db2.story_views ∧
  db1.reactions = db2.reactions ∧ db1.next_story_id = db2.next_story_id ∧
  db1.next_reaction_id = db2.next_reaction_id

/-- C10: the custom audience is write-only — creating a friends-only story
with a nonempty audience list does record every listed user in
`story_audience`, but neither the permission-checked single-story fetch nor
the feed ever reads that table: on any two states that differ only in
`story_audience` contents both reads return identical results, so friends
visibility is decided solely by follow edges. -/
theorem audience_write_only (dba dbb : DB)
    (now sid viewer uid limit offset : Nat)
    (h : agreeExceptAudience dba dbb) :
    get_story dba now sid viewer = get_story dbb now sid viewer ∧
    service_get_feed dba now uid limit offset =
      service_get_feed dbb now uid limit offset ∧
    (∀ db : DB, ∀ now2 ttl author : Nat, ∀ t m : Option String,
      ∀ ids : List Nat, ∀ s : Story, ∀ db2 : DB,
      create_story db now2 ttl author t m "friends" (some ids) = .ok (s, db2) →
      ∀ u ∈ ids, (s.id, u) ∈ db2.story_audience) := by
  obtain ⟨hu, hs, hf, hv, hr, hn1, hn2⟩ := h
  have hby : get_story_by_id dba now sid = get_story_by_id dbb now sid := by
    unfold get_story_by_id
    rw [hu, hs]
  have hfol : ∀ a b : Nat, is_following dba a b = is_following dbb a b := by
    intro a b
    unfold is_following
    rw [hf]
  refine ⟨?_, ?_, ?_⟩
  · simp only [get_story, hby, hfol]
  · have hfid : get_followee_ids dba uid = get_followee_ids dbb uid := by
      unfold get_followee_ids
      rw [hf]
    have hrows : publicOrOwnRows dba now uid = publicOrOwnRows dbb now uid := by
      unfold publicOrOwnRows
      rw [hu, hs]
    simp only [service_get_feed, get_feed_optimized, hfid, hrows]
  · intro db now2 ttl author t m ids s db2 hcr u hu2
    by_cases hval : t.isNone && m.isNone
    · simp [create_story, hval] at hcr
    · simp only [create_story, hval, Bool.false_eq_true, if_false] at hcr
      by_cases hids : ids.isEmpty
      · have : ids = [] := List.isEmpty_iff.mp hids
        subst this
        cases hu2
      · simp only [hids, Bool.not_false, Bool.and_true, if_pos,
          beq_self_eq_true] at hcr
        rcases hcr with ⟨rfl, rfl⟩
        exact mem_add_story_audience _ ids _ u hu2

/-- Two copies of `friendsDB`: one with an empty audience table, one whose
audience table lists user 3 for story 60. -/
def friendsDBWithAudience : DB :=
  { friendsDB with story_audience := [(60, 3)] }

/-- C10 witness: story 60's reads are identical whether or not user 3 is
in the audience table — in particular non-follower 3 still gets no result
even when listed in the audience. -/
theorem audience_write_only_witness :
    get_story friendsDB 50 60 3 = get_story friendsDBWithAudience 50 60 3 ∧
    service_get_feed friendsDB 50 3 20 0 =
      service_get_feed friendsDBWithAudience 50 3 20 0 ∧
    get_story friendsDBWithAudience 50 60 3 = none := by
  have h := audience_write_only friendsDB friendsDBWithAudience 50 60 3 3 20 0
    ⟨rfl, rfl, rfl, rfl, rfl, rfl, rfl⟩
  exact ⟨h.1, h.2.1, by rw [← h.1]; rfl⟩

end StoriesBackend
